import Mathlib

/-!
Shallow embedding of the configuration model and merge/filter engine of
`deeppavlov_dreamtools` (file `deeppavlov_dreamtools/distconfigs/manager.py`),
together with theorems settling the specification claims about it.

Python strings are modelled as Lean `String`; the Python `str.split`,
`str.split(sep, maxsplit=1)` and `str.replace` operations are implemented
directly on the underlying character lists so that every definition is
executable and kernel-reducible.  Python dictionaries are modelled as
insertion-ordered association lists (`List (String × α)`); `d[k] = v`
updates the value in place when the key is present and appends otherwise,
exactly like a Python `dict`.  Python exceptions are modelled with
`Except String`, the error string naming the Python exception class.
-/

namespace DreamTools

/-! ## Python string primitives -/

/-- Splitting worker on character lists.  The first `Nat` argument is fuel;
it is always called with at least `s.length + 1`, which is enough because
every recursive call consumes at least one character of `s`. -/
def splitAux (sep : List Char) : Nat → List Char → List Char → List (List Char)
  | _, [], acc => [acc.reverse]
  | 0, s, acc => [acc.reverse ++ s]
  | n + 1, c :: cs, acc =>
      if sep.isPrefixOf (c :: cs) then
        acc.reverse :: splitAux sep n ((c :: cs).drop sep.length) []
      else splitAux sep n cs (c :: acc)

/-- Model of Python `s.split(sep)` for a non-empty separator `sep` (the only
use in the source; Python rejects an empty separator). -/
def pySplit (s sep : String) : List String :=
  (splitAux sep.data (s.data.length + 1) s.data []).map (fun l => ⟨l⟩)

/-- Join a list of character lists with a separator, as Python
`sep.join(parts)`. -/
def joinWith (sep : List Char) : List (List Char) → List Char
  | [] => []
  | [x] => x
  | x :: xs => x ++ sep ++ joinWith sep xs

/-- Model of Python `s.split(sep, maxsplit=1)`: split at the first
occurrence of `sep` only. -/
def pySplitMax1 (s sep : String) : List String :=
  match pySplit s sep with
  | [] => [s]
  | [x] => [x]
  | x :: rest => [x, ⟨joinWith sep.data (rest.map String.data)⟩]

/-- Model of Python `s.replace(old, new)`: replace every occurrence of
`old` by `new`. -/
def pyReplace (s old new : String) : String :=
  ⟨joinWith new.data ((pySplit s old).map String.data)⟩

/-! ## Connector URL parsing (`_parse_connector_url`, manager.py lines 27-41) -/

/-- Intermediate value of `_parse_connector_url`: Python
`url_parts = url.split("//")[-1].split("/", maxsplit=1)`. -/
def urlParts (u : String) : List String :=
  pySplitMax1 ((pySplit u "//").getLastD "") "/"

/-- Body of `_parse_connector_url` for a truthy (non-`None`, non-empty)
`url`.  Python `host, port = url_parts[0].split(":")` raises `ValueError`
unless the split yields exactly two parts; `endpoint` starts as `""` and
becomes `url_parts[1]` when present. -/
def parse_connector_url_core (u : String) : Except String (String × String × String) :=
  match pySplit ((urlParts u).headD "") ":" with
  | [host, port] => .ok (host, port, (urlParts u).getD 1 "")
  | _ => .error "ValueError: unpacking host, port from url_parts[0].split(a colon)"

/-- Model of `_parse_connector_url(url)` (manager.py lines 27-41).  A
`None` or empty url is falsy, so all three components come back `None`;
otherwise the components are extracted, with a Python `ValueError`
modelled as `.error`. -/
def parse_connector_url (url : Option String) :
    Except String (Option String × Option String × Option String) :=
  match url with
  | none => .ok (none, none, none)
  | some u =>
    if u = "" then .ok (none, none, none)
    else
      match parse_connector_url_core u with
      | .error msg => .error msg
      | .ok (host, port, endpoint) => .ok (some host, some port, some endpoint)

/-! ## Python dictionaries as insertion-ordered association lists -/

/-- Model of the Python assignment `d[k] = v`: when `k` is already a key,
its value is replaced in place (insertion order preserved); otherwise the
pair is appended. -/
def dictSet {α : Type} (d : List (String × α)) (k : String) (v : α) :
    List (String × α) :=
  if d.any (fun kv => kv.1 == k) then
    d.map (fun kv => if kv.1 == k then (k, v) else kv)
  else d ++ [(k, v)]

/-- Model of the Python dict merge `{**a, **b}`: start from `a` and assign
every pair of `b` in order, so `b` wins on key collision. -/
def dictMerge {α : Type} (a b : List (String × α)) : List (String × α) :=
  b.foldl (fun acc kv => dictSet acc kv.1 kv.2) a

/-! ## Compose document model

The typed schemas live in `deeppavlov_dreamtools/distconfigs/generics.py`,
which is not part of the sources at hand; the container shape is therefore
modelled from the spec. -/

/-- Model of `DeploymentDefinition(mode=..., replicas=...)` from
`generics.py`.  Modelled from the spec: a `deploy` block with `mode` and
`replicas` fields (spec section 3, Compose Document). -/
structure DeploymentDefinition where
  mode : String
  replicas : Nat
deriving DecidableEq

/-- Model of a compose container descriptor (`ComposeContainer`,
`ComposeDevContainer`, `ComposeLocalContainer` of `generics.py`).
Modelled from the spec: a container descriptor carries arbitrary
deployment fields of which only `ports` and `deploy` are semantically
touched by the derivation algorithm; the remaining fields round-trip
unchanged and are kept here as an uninterpreted key-value bag. -/
structure ComposeContainer where
  ports : Option (List String)
  deploy : Option DeploymentDefinition
  extra : List (String × String)
deriving DecidableEq

/-- Model of `ComposeLocalContainer.parse_obj(s)` applied to a container
value that already satisfies the container schema.  Modelled from the
spec: reinterpreting a dev- or proxy-sourced container as the local
container shape preserves all fields (only `ports` and `deploy` are
semantically touched, and only by the caller). -/
def composeLocalContainerOf (s : ComposeContainer) : ComposeContainer := s

/-- Model of a compose document (`ComposeOverride`, `ComposeDev`,
`ComposeProxy`, `ComposeLocal` of `generics.py`).  Modelled from the
spec: `version` plus a name-keyed mapping of container descriptors. -/
structure ComposeConfig where
  version : Option String
  services : List (String × ComposeContainer)
deriving DecidableEq

/-- Model of `YmlDreamConfig.filter_services` (manager.py lines 162-185).
Python `include_names or self._config.services.keys()` makes `None` and
the empty list default to all service names, `exclude_names or []` makes
`None` default to the empty list; a service is kept when its key is in
the include list and not in the exclude list.  The re-validation
`GENERIC_MODEL.parse_obj(model_dict)` of the already-typed mapping is the
identity on this model. -/
def ymlFilterServices (cfg : ComposeConfig) (include_names : Option (List String))
    (exclude_names : Option (List String)) : ComposeConfig :=
  let inc := match include_names with
    | none => cfg.services.map Prod.fst
    | some l => if l.isEmpty then cfg.services.map Prod.fst else l
  let exc := match exclude_names with
    | none => []
    | some l => l
  { version := cfg.version,
    services := cfg.services.filter fun kv => inc.contains kv.1 && !exc.contains kv.1 }

/-- Model of `YmlDreamConfig.add_service` (manager.py lines 187-201):
insert or overwrite `name` in the services mapping, all other pairs
preserved. -/
def ymlAddService (cfg : ComposeConfig) (name : String) (definition : ComposeContainer) :
    ComposeConfig :=
  { version := cfg.version, services := dictSet cfg.services name definition }

/-! ## Serialize-and-write (`dump`, manager.py lines 130-136 and 147-153)

The filesystem is modelled as a mapping from path strings to file
contents.  Python `open(path, "x")` (exclusive creation) raises
`FileExistsError` when the path exists and otherwise creates the file;
`open(path, "w")` truncates or creates unconditionally. -/

/-- Filesystem snapshot for the write model: an association list from
path to serialized content. -/
abbrev FileSystem := List (String × String)

/-- Model of `JsonDreamConfig.dump` and `YmlDreamConfig.dump` (the two
bodies are identical up to the codec, which is irrelevant to the write
discipline): `mode = "x" if overwrite else "w"`, then open and write.
Returns the updated filesystem and the returned path on success. -/
def dump (data : String) (path : String) (overwrite : Bool) (fs : FileSystem) :
    Except String (FileSystem × String) :=
  let mode : String := if overwrite then "x" else "w"
  if mode = "x" then
    if fs.any (fun kv => kv.1 == path) then .error "FileExistsError"
    else .ok (dictSet fs path data, path)
  else .ok (dictSet fs path data, path)

/-! ## Loading (`from_path` / `from_dist`, manager.py lines 63-85) -/

/-- Model of `GENERIC_MODEL.parse_obj(data)` called with the parsed
document as its single positional argument, as `from_dist` does.
Modelled from the spec: schema validation of an already well-shaped
compose mapping yields the typed document. -/
def parse_obj (data : ComposeConfig) : Except String ComposeConfig := .ok data

/-- Model of `BaseDreamConfig.from_path` (manager.py lines 63-73) applied
to the parsed content of the file.  The source calls
`cls.GENERIC_MODEL.parse_obj(**data)`: the document mapping is unpacked
into keyword arguments, but `parse_obj` accepts exactly one positional
argument `obj` and no keyword parameters, so for every configuration
document (whose top-level keys are schema fields such as `version` and
`services`, never `obj`) the call raises `TypeError` before validation
runs. -/
def from_path (_data : ComposeConfig) : Except String ComposeConfig :=
  .error "TypeError: parse_obj() got unexpected keyword arguments"

/-- Model of `BaseDreamConfig.from_dist` (manager.py lines 75-85) applied
to the parsed content of the default-named file: a plain positional
`parse_obj(data)` call. -/
def from_dist (data : ComposeConfig) : Except String ComposeConfig :=
  parse_obj data

/-! ## Distribution path resolution (`resolve_all_paths`, manager.py lines 387-412)

Paths are modelled as lists of components; `Path(root) / "a" / "b"` is
list append, `path.name` is the last component and `path.parents[1]`
drops the last two components. -/

/-- Filesystem path as a list of components. -/
abbrev PyPath := List String

/-- Directory-tree snapshot for the resolution model: the sets of
existing file paths and existing directory paths.  `exists` is membership
in either set and `is_dir` membership in the directory set, so a
directory exists — exactly as on a real filesystem. -/
structure DirTree where
  files : List PyPath
  dirs : List PyPath
deriving DecidableEq

/-- Model of Python `path.exists()`. -/
def pathExists (t : DirTree) (p : PyPath) : Bool :=
  t.files.contains p || t.dirs.contains p

/-- Model of Python `path.is_dir()`. -/
def pathIsDir (t : DirTree) (p : PyPath) : Bool :=
  t.dirs.contains p

/-- Model of `DreamDist.resolve_dist_path` (manager.py lines 414-423):
`Path(dream_root) / "assistant_dists" / name`. -/
def resolve_dist_path (name : String) (dream_root : PyPath) : PyPath :=
  dream_root ++ ["assistant_dists", name]

/-- Model of `DreamDist.resolve_name_and_dream_root` (manager.py lines
425-434): `(path.name, path.parents[1])`.  Indexing `parents[1]` raises
`IndexError` when the path has fewer than two components. -/
def resolve_name_and_dream_root (path : PyPath) : Except String (String × PyPath) :=
  if path.length < 2 then .error "IndexError: parents index out of range"
  else .ok (path.getLastD "", path.dropLast.dropLast)

/-- Directory check at the end of `resolve_all_paths` (manager.py lines
409-411), written exactly as in the source:
`if not dist_path.exists() and dist_path.is_dir(): raise NotADirectoryError`.
Python operator precedence parses this as
`(not dist_path.exists()) and dist_path.is_dir()`. -/
def distPathCheck (t : DirTree) (dist_path : PyPath) (name : String)
    (dream_root : PyPath) : Except String (PyPath × String × PyPath) :=
  if !pathExists t dist_path && pathIsDir t dist_path then
    .error "NotADirectoryError"
  else .ok (dist_path, name, dream_root)

/-- Model of `DreamDist.resolve_all_paths` (manager.py lines 387-412).
`Option.none` models an absent (`None`) argument; a present `Path` is
always truthy in Python, while a present empty `name` string is falsy
and falls through to the `ValueError` branch. -/
def resolve_all_paths (t : DirTree) (dist_path : Option PyPath) (name : Option String)
    (dream_root : Option PyPath) : Except String (PyPath × String × PyPath) :=
  match dist_path with
  | some dp =>
    match resolve_name_and_dream_root dp with
    | .error msg => .error msg
    | .ok (n, root) => distPathCheck t dp n root
  | none =>
    match name, dream_root with
    | some n, some root =>
      if n = "" then .error "ValueError: provide either dist_path or name and dream_root"
      else distPathCheck t (resolve_dist_path n root) n root
    | _, _ => .error "ValueError: provide either dist_path or name and dream_root"

/-! ## Pipeline document model (`DreamPipeline`, manager.py lines 204-313) -/

/-- Model of `PipelineConfConnector` from `generics.py`.  Modelled from
the spec: a connector descriptor with an optional `url`. -/
structure PipelineConfConnector where
  url : Option String
deriving DecidableEq

/-- Model of `PipelineConfService` from `generics.py`.  Modelled from the
spec: a service descriptor either embeds a connector carrying an optional
`url` (`connectorUrl = some u`, where `u` is the value of
`service.connector.url`), or has no attribute path `.connector.url` at
all — the connector is absent or is a plain string reference — in which
case reading `service.connector.url` raises `AttributeError`
(`connectorUrl = none`). -/
structure PipelineConfService where
  connectorUrl : Option (Option String)
deriving DecidableEq

/-- Model of `DreamPipeline._filter_services_by_name` (manager.py lines
238-256).  For each pair in order: reading `v.connector.url` either
raises `AttributeError` — then the service is kept exactly when its name
with underscores replaced by dashes is in `names` (the exclude list is
not consulted on this branch) — or yields `url`; a falsy `url` drops the
service, otherwise the url is parsed (a `ValueError` propagates) and the
service is kept when the host is in `names` and not in
`exclude_names`. -/
def filter_services_by_name (original_dict : List (String × PipelineConfService))
    (names exclude_names : List String) :
    Except String (List (String × PipelineConfService)) :=
  match original_dict with
  | [] => .ok []
  | (k, v) :: rest =>
    match v.connectorUrl with
    | none =>
      if names.contains (pyReplace k "_" "-") then
        (filter_services_by_name rest names exclude_names).map ((k, v) :: ·)
      else filter_services_by_name rest names exclude_names
    | some optUrl =>
      match optUrl with
      | none => filter_services_by_name rest names exclude_names
      | some url =>
        if url = "" then filter_services_by_name rest names exclude_names
        else
          match parse_connector_url_core url with
          | .error msg => .error msg
          | .ok (host, _, _) =>
            if names.contains host && !exclude_names.contains host then
              (filter_services_by_name rest names exclude_names).map ((k, v) :: ·)
            else filter_services_by_name rest names exclude_names

/-- Model of `DreamPipeline._filter_connectors_by_name` (manager.py lines
224-236): a connector with a falsy `url` is dropped; otherwise the url is
parsed and the connector kept when the host is in `names` and not in
`exclude_names`. -/
def filter_connectors_by_name (original_dict : List (String × PipelineConfConnector))
    (names exclude_names : List String) :
    Except String (List (String × PipelineConfConnector)) :=
  match original_dict with
  | [] => .ok []
  | (k, v) :: rest =>
    match v.url with
    | none => filter_connectors_by_name rest names exclude_names
    | some url =>
      if url = "" then filter_connectors_by_name rest names exclude_names
      else
        match parse_connector_url_core url with
        | .error msg => .error msg
        | .ok (host, _, _) =>
          if names.contains host && !exclude_names.contains host then
            (filter_connectors_by_name rest names exclude_names).map ((k, v) :: ·)
          else filter_connectors_by_name rest names exclude_names

/-- Model of `PipelineConfServiceList` from `generics.py`.  Modelled from
the spec: three optional singleton services plus six name-keyed service
categories. -/
structure PipelineConfServiceList where
  last_chance_service : Option PipelineConfService
  timeout_service : Option PipelineConfService
  bot_annotator_selector : Option PipelineConfService
  post_annotators : List (String × PipelineConfService)
  annotators : List (String × PipelineConfService)
  skill_selectors : List (String × PipelineConfService)
  skills : List (String × PipelineConfService)
  post_skill_selector_annotators : List (String × PipelineConfService)
  response_selectors : List (String × PipelineConfService)
deriving DecidableEq

/-- Model of `PipelineConf` from `generics.py`.  Modelled from the spec:
a `connectors` mapping plus the category-partitioned `services`. -/
structure PipelineConf where
  connectors : List (String × PipelineConfConnector)
  services : PipelineConfServiceList
deriving DecidableEq

/-- Model of `DreamPipeline.filter_services` (manager.py lines 258-313).
`include_names or []` and `exclude_names or []` default absent lists to
empty; connectors and the six name-keyed categories are filtered, the
three singleton fields are copied over into the rebuilt service list, and
`GENERIC_MODEL.parse_obj(model_dict)` re-validates the already-typed
mapping, which is the identity on this model.  Any `ValueError` raised
while parsing a connector url propagates. -/
def pipelineFilterServicesCore (cfg : PipelineConf) (inc exc : List String) :
    Except String PipelineConf :=
  match filter_connectors_by_name cfg.connectors inc exc with
  | .error msg => .error msg
  | .ok connectors =>
  match filter_services_by_name cfg.services.post_annotators inc exc with
  | .error msg => .error msg
  | .ok post_annotators =>
  match filter_services_by_name cfg.services.annotators inc exc with
  | .error msg => .error msg
  | .ok annotators =>
  match filter_services_by_name cfg.services.skill_selectors inc exc with
  | .error msg => .error msg
  | .ok skill_selectors =>
  match filter_services_by_name cfg.services.skills inc exc with
  | .error msg => .error msg
  | .ok skills =>
  match filter_services_by_name cfg.services.post_skill_selector_annotators inc exc with
  | .error msg => .error msg
  | .ok post_skill_selector_annotators =>
  match filter_services_by_name cfg.services.response_selectors inc exc with
  | .error msg => .error msg
  | .ok response_selectors =>
    .ok { connectors := connectors,
          services :=
            { last_chance_service := cfg.services.last_chance_service,
              timeout_service := cfg.services.timeout_service,
              bot_annotator_selector := cfg.services.bot_annotator_selector,
              post_annotators := post_annotators,
              annotators := annotators,
              skill_selectors := skill_selectors,
              skills := skills,
              post_skill_selector_annotators := post_skill_selector_annotators,
              response_selectors := response_selectors } }

/-- Wrapper applying the Python defaulting `include_names or []` and
`exclude_names or []` before the per-category filtering. -/
def pipelineFilterServices (cfg : PipelineConf)
    (include_names exclude_names : Option (List String)) : Except String PipelineConf :=
  pipelineFilterServicesCore cfg (include_names.getD []) (exclude_names.getD [])

/-! ## Local deployment derivation (`create_local_yml`, manager.py lines 562-594) -/

/-- Per-entry processing step of the loop body of
`DreamDist.create_local_yml` (manager.py lines 582-592).  `services2` is
the value of the `services` variable at loop time, which the source has
already reassigned to `list(services) + ["agent", "mongo"]`; membership
is tested against it.  A member is reinterpreted through
`ComposeLocalContainer.parse_obj` and, under `drop_ports`, has its
`ports` cleared; under `single_replica` every entry's `deploy` becomes
`{mode: "replicated", replicas: 1}`. -/
def localYmlProcessEntry (services2 : List String) (drop_ports single_replica : Bool)
    (kv : String × ComposeContainer) : ComposeContainer :=
  let service :=
    if services2.contains kv.1 then
      let s := composeLocalContainerOf kv.2
      if drop_ports then { s with ports := none } else s
    else kv.2
  if single_replica then
    { service with deploy := some { mode := "replicated", replicas := 1 } }
  else service

/-- Model of the document computed by `DreamDist.create_local_yml`
(manager.py lines 562-594), up to the final `to_dist` write.  The
`services` argument is extended with `"agent"` and `"mongo"`; the dev
document is filtered to the extended set, the proxy document is filtered
to everything outside it; the local document starts from the proxy part,
and every entry of the merged `{**dev_part, **proxy_part}` mapping is
processed and inserted via `add_service`.  `ComposeLocal(services=...)`
is modelled from the spec as a fresh local document seeded with exactly
those services. -/
def create_local_yml_doc (compose_dev compose_proxy : ComposeConfig)
    (services : List String) (drop_ports single_replica : Bool) : ComposeConfig :=
  let services2 := services ++ ["agent", "mongo"]
  let dev_config_part := ymlFilterServices compose_dev (some services2) none
  let proxy_config_part := ymlFilterServices compose_proxy none (some services2)
  let local_config : ComposeConfig := { version := none, services := proxy_config_part.services }
  let all_config_parts := dictMerge dev_config_part.services proxy_config_part.services
  all_config_parts.foldl
    (fun acc kv => ymlAddService acc kv.1 (localYmlProcessEntry services2 drop_ports single_replica kv))
    local_config

/-! ## Theorems settling the specification claims -/

/-- C7: the connector-URL parser satisfies the three reference cases:
`"http://annotator:8080/respond"` yields `("annotator", "8080", "respond")`,
`"annotator:8080"` yields `("annotator", "8080", "")`, and `None` yields
`(None, None, None)`. -/
theorem connector_url_reference_cases :
    parse_connector_url (some "http://annotator:8080/respond") =
      .ok (some "annotator", some "8080", some "respond") ∧
    parse_connector_url (some "annotator:8080") =
      .ok (some "annotator", some "8080", some "") ∧
    parse_connector_url none = .ok (none, none, none) :=
  ⟨rfl, rfl, rfl⟩

/-- C8 counterexample: on the well-formed URL `"http://annotator"`, whose
host segment contains no colon, `_parse_connector_url` raises `ValueError`
instead of returning a triple with the port absent. -/
theorem connector_url_no_port_raises :
    parse_connector_url (some "http://annotator") =
      .error "ValueError: unpacking host, port from url_parts[0].split(a colon)" :=
  rfl

/-- C8 amended: for every non-empty URL string whose host segment contains
no colon (splitting the host segment on a colon yields a single part),
`_parse_connector_url` raises `ValueError` rather than returning a
`(host, port, endpoint)` triple; the parser is only total on URLs whose
host segment contains exactly one colon. -/
theorem connector_url_requires_port (u : String) (hne : ¬ (u = ""))
    (hhost : (pySplit ((urlParts u).headD "") ":").length = 1) :
    ∃ msg, parse_connector_url (some u) = .error msg := by
  obtain ⟨x, hx⟩ := List.length_eq_one.mp hhost
  refine ⟨"ValueError: unpacking host, port from url_parts[0].split(a colon)", ?_⟩
  simp only [parse_connector_url, parse_connector_url_core, if_neg hne, hx]

/-- C8 witness: the amended theorem applied to the concrete URL
`"http://annotator"`. -/
theorem connector_url_requires_port_witness :
    ∃ msg, parse_connector_url (some "http://annotator") = .error msg :=
  connector_url_requires_port "http://annotator" (by decide) (by decide)

/-- C1 (code divergence): the `mode = "x" if overwrite else "w"` line of
`dump` inverts the documented overwrite protection.  With
`overwrite = true` on an existing target the write raises
`FileExistsError`, and with `overwrite = false` it silently replaces the
existing content — the exact opposite of the claim (and of the docstring
of `to_path`). -/
theorem dump_overwrite_inverted :
    dump "new" "local.yml" true [("local.yml", "old")] = .error "FileExistsError" ∧
    dump "new" "local.yml" false [("local.yml", "old")] =
      .ok ([("local.yml", "new")], "local.yml") ∧
    dump "new" "local.yml" true [] = .ok ([("local.yml", "new")], "local.yml") :=
  ⟨rfl, rfl, rfl⟩

/-- C5 (code divergence): `from_path` calls
`cls.GENERIC_MODEL.parse_obj(**data)`, unpacking the document mapping
into keyword arguments, so it raises `TypeError` on every configuration
document, while `from_dist` on the same content returns the validated
config. -/
theorem from_path_always_type_error :
    from_path ⟨some "3.7", [("agent", ⟨none, none, []⟩)]⟩ =
      .error "TypeError: parse_obj() got unexpected keyword arguments" ∧
    from_dist ⟨some "3.7", [("agent", ⟨none, none, []⟩)]⟩ =
      .ok ⟨some "3.7", [("agent", ⟨none, none, []⟩)]⟩ :=
  ⟨rfl, rfl⟩

/-- C6 (code divergence): the guard
`if not dist_path.exists() and dist_path.is_dir()` in `resolve_all_paths`
is unsatisfiable — a path that is a directory necessarily exists — so the
function never raises `NotADirectoryError`; in particular, resolving a
distribution path that does not exist at all returns the triple
normally. -/
theorem resolve_all_paths_skips_directory_check :
    (∀ (t : DirTree) (dp : PyPath) (n : String) (root : PyPath),
        distPathCheck t dp n root = .ok (dp, n, root)) ∧
    resolve_all_paths ⟨[], []⟩ (some ["dream", "assistant_dists", "dream"]) none none =
      .ok (["dream", "assistant_dists", "dream"], "dream", ["dream"]) := by
  constructor
  · intro t dp n root
    unfold distPathCheck pathExists pathIsDir
    rcases h : t.dirs.contains dp with _ | _ <;> simp [h]
  · rfl

/-- C10: for the generic YAML compose wrapper, filtering with an absent or
empty include list is the same as including every service name: the
result keeps exactly the services whose name is not excluded. -/
theorem yml_filter_defaults_include_to_all (cfg : ComposeConfig)
    (exclude_names : Option (List String)) :
    ymlFilterServices cfg none exclude_names = ymlFilterServices cfg (some []) exclude_names ∧
    (ymlFilterServices cfg none exclude_names).services =
      cfg.services.filter (fun kv => !(exclude_names.getD []).contains kv.1) := by
  have hc : ∀ kv ∈ cfg.services, (cfg.services.map Prod.fst).contains kv.1 = true :=
    fun kv hkv => List.elem_eq_true_of_mem (List.mem_map_of_mem Prod.fst hkv)
  constructor
  · rfl
  · cases exclude_names with
    | none =>
      show cfg.services.filter _ = cfg.services.filter _
      refine List.filter_congr fun kv hkv => ?_
      rw [hc kv hkv]
      rfl
    | some l =>
      show cfg.services.filter _ = cfg.services.filter _
      refine List.filter_congr fun kv hkv => ?_
      rw [hc kv hkv]
      rfl

/-- C2: the reference derivation scenario.  For a dev document with
services `a, agent, mongo` and a proxy document with services
`a, b, agent, mongo` (with arbitrary container contents), the document
computed by `create_local_yml(["a"], drop_ports=True, single_replica=True)`
has exactly the four services `b, a, agent, mongo`; `a`, `agent` and
`mongo` are the dev containers with `ports` cleared, `b` is the proxy
container with its ports untouched, and every entry carries
`deploy = {mode: "replicated", replicas: 1}`. -/
theorem create_local_yml_scenario (v1 v2 : Option String)
    (da dg dm pa pb pg pm : ComposeContainer) :
    (create_local_yml_doc
        ⟨v1, [("a", da), ("agent", dg), ("mongo", dm)]⟩
        ⟨v2, [("a", pa), ("b", pb), ("agent", pg), ("mongo", pm)]⟩
        ["a"] true true).services =
      [("b", { pb with deploy := some { mode := "replicated", replicas := 1 } }),
       ("a", { da with ports := none, deploy := some { mode := "replicated", replicas := 1 } }),
       ("agent", { dg with ports := none, deploy := some { mode := "replicated", replicas := 1 } }),
       ("mongo", { dm with ports := none, deploy := some { mode := "replicated", replicas := 1 } })] :=
  rfl

/-- C3 counterexample: with original service list `["a"]` and
`drop_ports = true`, the entry named `agent` — which is not in the
original list — still has its ports cleared in the derived local
document, because the source tests membership against the reassigned,
extended `services` variable. -/
theorem local_yml_clears_agent_ports :
    ((create_local_yml_doc
        ⟨some "3.7", [("a", ⟨some ["4242:4242"], none, []⟩),
                       ("agent", ⟨some ["4030:4030"], none, []⟩),
                       ("mongo", ⟨none, none, []⟩)]⟩
        ⟨some "3.7", [("a", ⟨some ["4242:4242"], none, []⟩),
                       ("b", ⟨some ["8000:8000"], none, []⟩),
                       ("agent", ⟨some ["4030:4030"], none, []⟩),
                       ("mongo", ⟨none, none, []⟩)]⟩
        ["a"] true true).services.lookup "agent") =
      some ⟨none, some ⟨"replicated", 1⟩, []⟩ ∧
    ¬ ("agent" ∈ (["a"] : List String)) :=
  ⟨rfl, by decide⟩

/-- C3 amended: in `create_local_yml` with `drop_ports = true`, an entry
of the combined dev/proxy mapping has its ports cleared (after
reinterpretation as a local container) exactly when its name is in the
*extended* services list `services + ["agent", "mongo"]` — the variable
the source reassigns before the loop — so entries named `agent` or
`mongo` always have their ports cleared, whether or not they were in the
original list. -/
theorem local_yml_port_clear_uses_extended (services : List String)
    (single_replica : Bool) (kv : String × ComposeContainer) (c : ComposeContainer) :
    ((localYmlProcessEntry (services ++ ["agent", "mongo"]) true single_replica kv).ports =
      if (services ++ ["agent", "mongo"]).contains kv.1 then none else kv.2.ports) ∧
    (localYmlProcessEntry (services ++ ["agent", "mongo"]) true single_replica ("agent", c)).ports = none ∧
    (localYmlProcessEntry (services ++ ["agent", "mongo"]) true single_replica ("mongo", c)).ports = none := by
  have key : ∀ (s2 : List String) (kv2 : String × ComposeContainer),
      (localYmlProcessEntry s2 true single_replica kv2).ports =
        if s2.contains kv2.1 then none else kv2.2.ports := by
    intro s2 kv2
    unfold localYmlProcessEntry composeLocalContainerOf
    rcases h : s2.contains kv2.1 with _ | _ <;> cases single_replica <;> simp [h]
  refine ⟨key _ kv, ?_, ?_⟩ <;> rw [key] <;> simp

/-- Helper: a mapped `Except` that succeeded comes from a success, and the
result is the mapped value. -/
theorem exceptMapConsOk {α : Type} (e : Except String (List α)) (x : α)
    (r : List α) (h : e.map (x :: ·) = .ok r) :
    ∃ tail, e = .ok tail ∧ r = x :: tail := by
  cases e with
  | error msg => simp [Except.map] at h
  | ok l =>
    refine ⟨l, rfl, ?_⟩
    simpa [Except.map] using h.symm

/-- C4 counterexample: a service without a connector URL whose normalized
name is in both the include and the exclude list is kept by
`_filter_services_by_name`, although the claim requires it to be removed:
the `AttributeError` branch never consults the exclude list. -/
theorem nameonly_excluded_service_kept :
    filter_services_by_name [("my_service", ⟨none⟩)] ["my-service"] ["my-service"] =
      .ok [("my_service", ⟨none⟩)] ∧
    (pyReplace "my_service" "_" "-") ∈ (["my-service"] : List String) :=
  ⟨rfl, by decide⟩

/-- C4 amended: in a pipeline service-category filter that succeeds, a
service without a connector URL is kept if and only if it occurs in the
input and its name with underscores replaced by dashes is in the include
list; the exclude list is not consulted for such services. -/
theorem nameonly_service_kept_iff_included (d : List (String × PipelineConfService))
    (names exclude_names : List String) (k : String) (v : PipelineConfService)
    (r : List (String × PipelineConfService))
    (hv : v.connectorUrl = none)
    (hr : filter_services_by_name d names exclude_names = .ok r) :
    ((k, v) ∈ r ↔ ((k, v) ∈ d ∧ names.contains (pyReplace k "_" "-") = true)) := by
  induction d generalizing r with
  | nil =>
    unfold filter_services_by_name at hr
    injection hr with hr
    subst hr
    simp
  | cons hd tl ih =>
    obtain ⟨hk, ⟨cu⟩⟩ := hd
    unfold filter_services_by_name at hr
    simp only [List.mem_cons, Prod.mk.injEq]
    rcases cu with _ | ⟨_ | url⟩
    · -- AttributeError branch: keep iff normalized name included
      dsimp only at hr
      split at hr
      · obtain ⟨tail, htail, rfl⟩ := exceptMapConsOk _ _ _ hr
        rw [List.mem_cons, ih tail htail]
        rename_i hname
        constructor
        · rintro (heq | ⟨hmem, hC⟩)
          · obtain ⟨rfl, rfl⟩ := Prod.mk.injEq .. ▸ heq
            exact ⟨Or.inl ⟨rfl, rfl⟩, hname⟩
          · exact ⟨Or.inr hmem, hC⟩
        · rintro ⟨(⟨rfl, rfl⟩ | hmem), hC⟩
          · exact Or.inl rfl
          · exact Or.inr ⟨hmem, hC⟩
      · rw [ih r hr]
        rename_i hname
        constructor
        · rintro ⟨hmem, hC⟩
          exact ⟨Or.inr hmem, hC⟩
        · rintro ⟨(⟨rfl, rfl⟩ | hmem), hC⟩
          · exact absurd hC hname
          · exact ⟨hmem, hC⟩
    · -- connector present with url None: service dropped
      dsimp only at hr
      rw [ih r hr]
      constructor
      · rintro ⟨hmem, hC⟩
        exact ⟨Or.inr hmem, hC⟩
      · rintro ⟨(⟨rfl, rfl⟩ | hmem), hC⟩
        · exact Option.noConfusion hv
        · exact ⟨hmem, hC⟩
    · -- connector present with a url string
      dsimp only at hr
      split at hr
      · -- empty url: service dropped
        rw [ih r hr]
        constructor
        · rintro ⟨hmem, hC⟩
          exact ⟨Or.inr hmem, hC⟩
        · rintro ⟨(⟨rfl, rfl⟩ | hmem), hC⟩
          · exact Option.noConfusion hv
          · exact ⟨hmem, hC⟩
      · split at hr
        · -- ValueError while parsing: no success possible
          exact absurd hr (by simp)
        · split at hr
          · -- host matched: service kept, but its connectorUrl is not none
            obtain ⟨tail, htail, rfl⟩ := exceptMapConsOk _ _ _ hr
            rw [List.mem_cons, ih tail htail]
            constructor
            · rintro (heq | ⟨hmem, hC⟩)
              · obtain ⟨rfl, rfl⟩ := Prod.mk.injEq .. ▸ heq
                exact Option.noConfusion hv
              · exact ⟨Or.inr hmem, hC⟩
            · rintro ⟨(⟨rfl, rfl⟩ | hmem), hC⟩
              · exact Option.noConfusion hv
              · exact Or.inr ⟨hmem, hC⟩
          · -- host not matched: service dropped
            rw [ih r hr]
            constructor
            · rintro ⟨hmem, hC⟩
              exact ⟨Or.inr hmem, hC⟩
            · rintro ⟨(⟨rfl, rfl⟩ | hmem), hC⟩
              · exact Option.noConfusion hv
              · exact ⟨hmem, hC⟩

/-- C4 witness: the amended theorem applied to a one-service document
whose only service has no connector URL and an include list containing
its dash-normalized name. -/
theorem nameonly_service_kept_iff_included_witness :
    (("my_service", (⟨none⟩ : PipelineConfService)) ∈
        [("my_service", (⟨none⟩ : PipelineConfService))] ↔
      (("my_service", (⟨none⟩ : PipelineConfService)) ∈
          [("my_service", (⟨none⟩ : PipelineConfService))] ∧
        (["my-service"] : List String).contains (pyReplace "my_service" "_" "-") = true)) :=
  nameonly_service_kept_iff_included [("my_service", ⟨none⟩)] ["my-service"] ["other"]
    "my_service" ⟨none⟩ [("my_service", ⟨none⟩)] rfl (by rfl)

/-- C9: whenever the pipeline `filter_services` succeeds, the three
singleton service fields of the result are exactly those of the input
document — filtering touches only the connectors and the six name-keyed
categories. -/
theorem pipeline_filter_preserves_singletons (cfg : PipelineConf)
    (include_names exclude_names : Option (List String)) (r : PipelineConf)
    (h : pipelineFilterServices cfg include_names exclude_names = .ok r) :
    r.services.last_chance_service = cfg.services.last_chance_service ∧
    r.services.timeout_service = cfg.services.timeout_service ∧
    r.services.bot_annotator_selector = cfg.services.bot_annotator_selector := by
  unfold pipelineFilterServices pipelineFilterServicesCore at h
  repeat' split at h
  all_goals try exact Except.noConfusion h
  injection h with h
  subst h
  exact ⟨rfl, rfl, rfl⟩

/-- Concrete pipeline document exercising all three matching rules: a
connector matched by URL host, a service with a connector URL, and a
service matched by its dash-normalized name. -/
def pipelineWitnessConfig : PipelineConf :=
  { connectors := [("sentseg", ⟨some "http://sentseg:8011/sentseg"⟩)],
    services :=
      { last_chance_service := some ⟨none⟩,
        timeout_service := some ⟨none⟩,
        bot_annotator_selector := none,
        post_annotators := [],
        annotators := [("spelling", ⟨some (some "http://spelling:8074/respond")⟩)],
        skill_selectors := [],
        skills := [("dummy_skill", ⟨none⟩)],
        post_skill_selector_annotators := [],
        response_selectors := [] } }

/-- C9 witness: the singleton-preservation theorem applied to the
concrete pipeline document, whose filtering by
`["sentseg", "spelling", "dummy-skill"]` keeps every entry. -/
theorem pipeline_filter_preserves_singletons_witness :
    pipelineWitnessConfig.services.last_chance_service =
      pipelineWitnessConfig.services.last_chance_service ∧
    pipelineWitnessConfig.services.timeout_service =
      pipelineWitnessConfig.services.timeout_service ∧
    pipelineWitnessConfig.services.bot_annotator_selector =
      pipelineWitnessConfig.services.bot_annotator_selector :=
  pipeline_filter_preserves_singletons pipelineWitnessConfig
    (some ["sentseg", "spelling", "dummy-skill"]) none pipelineWitnessConfig (by rfl)

end DreamTools
